import Mathlib

/-!
Verification of the Tappy membership / identity core.

This file gives a shallow embedding of the Tappy services
(`src/services/telegram_user.py`, `src/services/group.py`) over the
relational state declared in `src/db/schema.py`, together with the
pydantic input models of `src/model/user.py`, and proves the behavioural
properties stated for them.

Modelling conventions:
* A database state (`DB`) carries the rows of the tables `users`,
  `groups`, `taps` and the two association tables `groups_users` and
  `groups_admins` (pairs `(user_id, group_id)`), plus the autoincrement
  counters for the surrogate keys.
* SQLAlchemy `query(...).filter_by(...).first()` becomes `List.find?`.
* Mutating a relationship list and committing becomes a functional
  update of the corresponding association list; `datetime` values are
  integers on a discrete timeline.
* A service method that can `raise ValueError` becomes a function into
  `Except (Err × DB)`; the `DB` carried by an error is the session state
  at the moment of the raise (the caller keeps it after rollback).
-/

namespace Tappy

/-- Row of table `users` (`src/db/schema.py`, class `User`).  The column
`telegram_username` is declared `nullable=False`, so committed rows always
carry a string. -/
structure User where
  id : Nat
  telegram_id : Int
  telegram_username : String
  telegram_chat_id : Int
  deriving Repr, DecidableEq

/-- Row of table `groups` (`src/db/schema.py`, class `Group`). -/
structure Group where
  id : Nat
  name : String
  deriving Repr, DecidableEq

/-- Row of table `taps` (`src/db/schema.py`, class `Tap`). -/
structure Tap where
  id : Nat
  description : String
  source_user_id : Nat
  scheduled_datetime : Int
  nagging_interval_seconds : Int
  acked_until : Option Int
  created_at : Int
  updated_at : Int
  is_active : Bool
  is_deleted : Bool
  acked_by_user_id : Option Nat
  deriving Repr, DecidableEq

/-- The relational state: the three entity tables, the two membership
association tables (`groups_users`, `groups_admins`, as
`(user_id, group_id)` pairs), and the autoincrement counters. -/
structure DB where
  users : List User
  groups : List Group
  groups_users : List (Nat × Nat)
  groups_admins : List (Nat × Nat)
  taps : List Tap
  nextUserId : Nat
  nextGroupId : Nat
  deriving Repr, DecidableEq

/-- Pydantic `UserModel` (`src/model/user.py`): just the optional internal id. -/
structure UserModel where
  id : Option Nat
  deriving Repr, DecidableEq

/-- Pydantic `TelegramUser` (`src/model/user.py`). -/
structure TelegramUser where
  id : Option Nat
  telegram_id : Int
  telegram_username : Option String
  telegram_chat_id : Option Int
  deriving Repr, DecidableEq

/-- Pydantic `TelegramUserCreate` (`src/model/user.py`): `telegram_id`,
`telegram_username` and `telegram_chat_id` are declared without defaults,
hence required by validation. -/
structure TelegramUserCreate where
  id : Option Nat
  telegram_id : Int
  telegram_username : String
  telegram_chat_id : Int
  deriving Repr, DecidableEq

/-- Pydantic `GroupModel` (`src/model/user.py`). -/
structure GroupModel where
  id : Option Nat
  name : String
  admins : List TelegramUser
  users : List TelegramUser
  deriving Repr, DecidableEq

/-- Pydantic `TelegramGroupedUser` (`src/model/user.py`). -/
structure TelegramGroupedUser where
  id : Option Nat
  telegram_id : Int
  telegram_username : Option String
  telegram_chat_id : Option Int
  groups : List GroupModel
  admin_of_groups : List GroupModel
  deriving Repr, DecidableEq

/-- Field validation for `TelegramUserCreate` (`src/model/user.py`,
lines 33-38): all three telegram fields are required — a missing (or
`None`) `telegram_id`, `telegram_username` or `telegram_chat_id` is
rejected by pydantic; `id` is optional with default `None`. -/
def TelegramUserCreate.validate (id : Option Nat) (telegram_id : Option Int)
    (telegram_username : Option String) (telegram_chat_id : Option Int) :
    Option TelegramUserCreate :=
  match telegram_id, telegram_username, telegram_chat_id with
  | some tid, some tun, some tc => some ⟨id, tid, tun, tc⟩
  | _, _, _ => none

/-- The distinct `ValueError` conditions raised by the services, plus the
storage-level constraint violation on `Tap`. -/
inductive Err where
  | kickingUserNotFound (telegram_id : Int)
  | targetUserNotFound (telegram_id : Int)
  | selfKick
  | groupNotFound (name : String)
  | groupAlreadyExists (name : String)
  | creatorNotFound (id : Option Nat)
  | userNotFound (telegram_id : Int)
  | kickerNotMember
  | targetNotMember
  | kickerNotAdmin
  | targetIsAdmin
  | adminUserNotFound (id : Option Nat)
  | adminNotAdminOfGroup (id : Option Nat) (name : String)
  | newAdminUserNotFound (id : Option Nat)
  | newAdminNotMember (id : Option Nat) (name : String)
  | invalidEntity
  deriving Repr, DecidableEq

/-- `self._db.query(User).filter_by(telegram_id=t).first()`. -/
def findUserByTid (db : DB) (tid : Int) : Option User :=
  db.users.find? (fun u => u.telegram_id == tid)

/-- `self._db.query(User).filter_by(id=i).first()` where `i` comes from a
pydantic model and may be `None` (then no row matches, ids being non-null). -/
def findUserById (db : DB) (i : Option Nat) : Option User :=
  db.users.find? (fun u => i == some u.id)

/-- `self._db.query(Group).filter_by(name=n).first()`. -/
def findGroupByName (db : DB) (n : String) : Option Group :=
  db.groups.find? (fun g => g.name == n)

/-- `TelegramUser.model_validate(db_user)`. -/
def toTelegramUser (u : User) : TelegramUser :=
  ⟨some u.id, u.telegram_id, some u.telegram_username, some u.telegram_chat_id⟩

/-- The `admins` relationship of a group row: users linked through
`groups_admins`. -/
def groupAdmins (db : DB) (g : Group) : List User :=
  db.users.filter (fun u => (u.id, g.id) ∈ db.groups_admins)

/-- The `users` relationship of a group row: users linked through
`groups_users`. -/
def groupMembers (db : DB) (g : Group) : List User :=
  db.users.filter (fun u => (u.id, g.id) ∈ db.groups_users)

/-- `GroupModel.model_validate(db_group)`. -/
def toGroupModel (db : DB) (g : Group) : GroupModel :=
  ⟨some g.id, g.name, (groupAdmins db g).map toTelegramUser,
    (groupMembers db g).map toTelegramUser⟩

/-- The `groups` relationship of a user row. -/
def userGroups (db : DB) (u : User) : List Group :=
  db.groups.filter (fun g => (u.id, g.id) ∈ db.groups_users)

/-- The `admin_of_groups` relationship of a user row. -/
def userAdminGroups (db : DB) (u : User) : List Group :=
  db.groups.filter (fun g => (u.id, g.id) ∈ db.groups_admins)

/-- `TelegramGroupedUser.model_validate(db_user)`. -/
def toGroupedUser (db : DB) (u : User) : TelegramGroupedUser :=
  ⟨some u.id, u.telegram_id, some u.telegram_username, some u.telegram_chat_id,
    (userGroups db u).map (toGroupModel db),
    (userAdminGroups db u).map (toGroupModel db)⟩

/-- Update the first element of a list satisfying `p` (in-place ORM
mutation of the row returned by `.first()`). -/
def updateFirst (p : α → Bool) (f : α → α) : List α → List α
  | [] => []
  | x :: xs => if p x then f x :: xs else x :: updateFirst p f xs

/-- `TelegramUserService.create_user` (`src/services/telegram_user.py`,
lines 31-68): upsert by `telegram_id`; if the user exists and the username
changed, the stored username is updated in place, otherwise a fresh row is
inserted. -/
def create_user (db : DB) (t : TelegramUserCreate) : TelegramUser × DB :=
  match findUserByTid db t.telegram_id with
  | some dbUser =>
    if dbUser.telegram_username == t.telegram_username then
      (toTelegramUser dbUser, db)
    else
      (toTelegramUser { dbUser with telegram_username := t.telegram_username },
        { db with
            users := updateFirst (fun u => u.telegram_id == t.telegram_id)
              (fun u => { u with telegram_username := t.telegram_username })
              db.users })
  | none =>
    let newUser : User :=
      ⟨db.nextUserId, t.telegram_id, t.telegram_username, t.telegram_chat_id⟩
    (toTelegramUser newUser,
      { db with users := db.users ++ [newUser], nextUserId := db.nextUserId + 1 })

/-- `TelegramUserService.get_grouped_user` (`src/services/telegram_user.py`,
lines 70-86). -/
def get_grouped_user (db : DB) (telegram_id : Int) : Option TelegramGroupedUser :=
  match findUserByTid db telegram_id with
  | some dbUser => some (toGroupedUser db dbUser)
  | none => none

/-- `TelegramUserService.assign_group` (`src/services/telegram_user.py`,
lines 88-120). -/
def assign_group (db : DB) (group : GroupModel) (user : TelegramUser) :
    Except (Err × DB) (TelegramGroupedUser × DB) :=
  match findUserByTid db user.telegram_id with
  | none => .error (.userNotFound user.telegram_id, db)
  | some dbUser =>
    match findGroupByName db group.name with
    | none => .error (.groupNotFound group.name, db)
    | some dbGroup =>
      let db' :=
        if (dbUser.id, dbGroup.id) ∈ db.groups_users then db
        else { db with groups_users := db.groups_users ++ [(dbUser.id, dbGroup.id)] }
      .ok (toGroupedUser db' dbUser, db')

/-- `TelegramUserService.exit_from_group` (`src/services/telegram_user.py`,
lines 122-153). -/
def exit_from_group (db : DB) (group : GroupModel) (user : TelegramUser) :
    Except (Err × DB) (TelegramGroupedUser × DB) :=
  match findUserByTid db user.telegram_id with
  | none => .error (.userNotFound user.telegram_id, db)
  | some dbUser =>
    match findGroupByName db group.name with
    | none => .error (.groupNotFound group.name, db)
    | some dbGroup =>
      let db' :=
        if (dbUser.id, dbGroup.id) ∈ db.groups_users then
          { db with groups_users := db.groups_users.erase (dbUser.id, dbGroup.id) }
        else db
      .ok (toGroupedUser db' dbUser, db')

/-- `TelegramUserService.kick_from_group` (`src/services/telegram_user.py`,
lines 155-222): the eight precondition checks in source order, then removal
of the target's membership row. -/
def kick_from_group (db : DB) (group : GroupModel)
    (kicking_user target_user : TelegramUser) :
    Except (Err × DB) (TelegramGroupedUser × DB) :=
  match findUserByTid db kicking_user.telegram_id with
  | none => .error (.kickingUserNotFound kicking_user.telegram_id, db)
  | some ku =>
    match findUserByTid db target_user.telegram_id with
    | none => .error (.targetUserNotFound target_user.telegram_id, db)
    | some tu =>
      if ku.telegram_id == tu.telegram_id then .error (.selfKick, db)
      else
        match findGroupByName db group.name with
        | none => .error (.groupNotFound group.name, db)
        | some g =>
          if (ku.id, g.id) ∈ db.groups_users then
            if (tu.id, g.id) ∈ db.groups_users then
              if (ku.id, g.id) ∈ db.groups_admins then
                if (tu.id, g.id) ∈ db.groups_admins then .error (.targetIsAdmin, db)
                else
                  let db' :=
                    { db with groups_users := db.groups_users.erase (tu.id, g.id) }
                  .ok (toGroupedUser db' tu, db')
              else .error (.kickerNotAdmin, db)
            else .error (.targetNotMember, db)
          else .error (.kickerNotMember, db)

/-- `GroupService.create_group` (`src/services/group.py`, lines 16-61). -/
def create_group (db : DB) (name : String) (creating_user : UserModel) :
    Except (Err × DB) (GroupModel × DB) :=
  match findGroupByName db name with
  | some _ => .error (.groupAlreadyExists name, db)
  | none =>
    match findUserById db creating_user.id with
    | none => .error (.creatorNotFound creating_user.id, db)
    | some creator =>
      let g : Group := ⟨db.nextGroupId, name⟩
      let db' :=
        { db with
            groups := db.groups ++ [g],
            groups_users := db.groups_users ++ [(creator.id, g.id)],
            groups_admins := db.groups_admins ++ [(creator.id, g.id)],
            nextGroupId := db.nextGroupId + 1 }
      .ok (toGroupModel db' g, db')

/-- `GroupService.promote_to_admin` (`src/services/group.py`, lines 89-145):
checks in source order, then insert-if-absent into `groups_admins`. -/
def promote_to_admin (db : DB) (group : GroupModel)
    (admin_user new_admin_user : UserModel) :
    Except (Err × DB) (GroupModel × DB) :=
  match findGroupByName db group.name with
  | none => .error (.groupNotFound group.name, db)
  | some g =>
    match findUserById db admin_user.id with
    | none => .error (.adminUserNotFound admin_user.id, db)
    | some a =>
      if (a.id, g.id) ∈ db.groups_admins then
        match findUserById db new_admin_user.id with
        | none => .error (.newAdminUserNotFound new_admin_user.id, db)
        | some na =>
          if (na.id, g.id) ∈ db.groups_users then
            let db' :=
              if (na.id, g.id) ∈ db.groups_admins then db
              else { db with groups_admins := db.groups_admins ++ [(na.id, g.id)] }
            .ok (toGroupModel db' g, db')
          else .error (.newAdminNotMember new_admin_user.id group.name, db)
      else .error (.adminNotAdminOfGroup admin_user.id group.name, db)

/-- The four `CheckConstraint`s of `Tap.__table_args__`
(`src/db/schema.py`, lines 239-256), evaluated on a row. -/
def tapChecksOk (t : Tap) : Bool :=
  (match t.acked_until with
    | none => true
    | some a => decide (t.created_at < a)) &&
  decide (t.created_at < t.scheduled_datetime) &&
  decide (0 < t.nagging_interval_seconds) &&
  (match t.acked_until with
    | none => true
    | some a => decide (t.scheduled_datetime < a))

/-- Committing a new `Tap` row: the storage boundary applies the four
check constraints of `Tap.__table_args__` and rejects the commit when any
fails (the transaction is rolled back whole, as exercised by
`src/test/test_schema.py::test_constraints`). -/
def insertTap (db : DB) (t : Tap) : Except (Err × DB) (Tap × DB) :=
  if tapChecksOk t then .ok (t, { db with taps := db.taps ++ [t] })
  else .error (.invalidEntity, db)

/-- The state the caller observes after a service call: the new state on
success, the rolled-back (pre-call) state on error. -/
def commitOrRollback {α : Type} (db : DB) (r : Except (Err × DB) (α × DB)) : DB :=
  match r with
  | .ok (_, db') => db'
  | .error _ => db

/-- Membership of the user with a given `telegram_id` in the group with a
given name, resolved exactly as the services resolve both. -/
def memberCheck (db : DB) (tid : Int) (gname : String) : Bool :=
  match findUserByTid db tid, findGroupByName db gname with
  | some u, some g => decide ((u.id, g.id) ∈ db.groups_users)
  | _, _ => false

/-- Adminship of the user with a given `telegram_id` in the group with a
given name, resolved exactly as the services resolve both. -/
def adminCheck (db : DB) (tid : Int) (gname : String) : Bool :=
  match findUserByTid db tid, findGroupByName db gname with
  | some u, some g => decide ((u.id, g.id) ∈ db.groups_admins)
  | _, _ => false

/-- The error of a service result, if any. -/
def errOf {α : Type} (r : Except (Err × DB) α) : Option Err :=
  match r with
  | .error (e, _) => some e
  | .ok _ => none

/-! Sample states and inputs used to instantiate the theorems below. -/

/-- A fresh, empty database. -/
def dbEmpty : DB := ⟨[], [], [], [], [], 1, 1⟩

/-- One persisted user, no groups. -/
def dbOneUser : DB := ⟨[⟨1, 10, "alice", 5⟩], [], [], [], [], 2, 1⟩

/-- Two persisted users; user 1 founded group "G" (member and admin) and
user 2 is a plain member. -/
def dbTeam : DB :=
  ⟨[⟨1, 10, "a", 1⟩, ⟨2, 20, "b", 2⟩], [⟨1, "G"⟩], [(1, 1), (2, 1)], [(1, 1)], [], 3, 2⟩

/-- The pydantic view of group "G". -/
def gTeam : GroupModel := ⟨some 1, "G", [], []⟩

/-- The pydantic view of user 1 of `dbTeam`. -/
def tuAdmin : TelegramUser := ⟨some 1, 10, some "a", some 1⟩

/-- The pydantic view of user 2 of `dbTeam`. -/
def tuTarget : TelegramUser := ⟨some 2, 20, some "b", some 2⟩

/-! Helper lemmas. -/

theorem find?_updateFirst {α : Type} (p : α → Bool) (f : α → α) (l : List α) (a : α)
    (h : l.find? p = some a) (hf : p (f a) = true) :
    (updateFirst p f l).find? p = some (f a) := by
  induction l with
  | nil => simp [List.find?] at h
  | cons x xs ih =>
    unfold updateFirst
    cases hx : p x with
    | true =>
      rw [List.find?_cons_of_pos _ hx] at h
      injection h with h
      subst h
      rw [if_pos rfl]
      exact List.find?_cons_of_pos _ hf
    | false =>
      rw [List.find?_cons_of_neg _ (by simp [hx])] at h
      rw [if_neg (by simp)]
      rw [List.find?_cons_of_neg _ (by simp [hx])]
      exact ih h

theorem find?_append_left_none {α : Type} (p : α → Bool) (l₁ l₂ : List α)
    (h : l₁.find? p = none) : (l₁ ++ l₂).find? p = l₂.find? p := by
  rw [List.find?_append, h, Option.none_or]

theorem filter_id_eq_single (l : List User) (hnd : (l.map User.id).Nodup)
    (fu : User) (hmem : fu ∈ l) :
    l.filter (fun u => u.id == fu.id) = [fu] := by
  induction l with
  | nil => cases hmem
  | cons x xs ih =>
    rw [List.map_cons, List.nodup_cons] at hnd
    obtain ⟨hx, hxs⟩ := hnd
    rcases List.mem_cons.mp hmem with rfl | hmem
    · rw [List.filter_cons_of_pos (by simp)]
      have hnil : xs.filter (fun u => u.id == fu.id) = [] := by
        rw [List.filter_eq_nil_iff]
        intro u hu hbeq
        exact hx ((eq_of_beq hbeq) ▸ List.mem_map_of_mem User.id hu)
      rw [hnil]
    · have hne : x.id ≠ fu.id := by
        intro h
        exact hx (h ▸ List.mem_map_of_mem User.id hmem)
      rw [List.filter_cons_of_neg (by simp [hne])]
      exact ih hxs hmem

theorem findUserByTid_set_gu (db : DB) (v : List (Nat × Nat)) (tid : Int) :
    findUserByTid { db with groups_users := v } tid = findUserByTid db tid := rfl

theorem findUserByTid_set_ga (db : DB) (v : List (Nat × Nat)) (tid : Int) :
    findUserByTid { db with groups_admins := v } tid = findUserByTid db tid := rfl

theorem findUserById_set_ga (db : DB) (v : List (Nat × Nat)) (i : Option Nat) :
    findUserById { db with groups_admins := v } i = findUserById db i := rfl

theorem findGroupByName_set_gu (db : DB) (v : List (Nat × Nat)) (n : String) :
    findGroupByName { db with groups_users := v } n = findGroupByName db n := rfl

theorem findGroupByName_set_ga (db : DB) (v : List (Nat × Nat)) (n : String) :
    findGroupByName { db with groups_admins := v } n = findGroupByName db n := rfl

/-! Claim theorems. -/

/-- C8: the spec declares the display name optional on upsert
(`display_name may be absent`), and the schema's own docstring calls
`telegram_username` an "optional string" with annotation `str | None`;
but `TelegramUserCreate` (`src/model/user.py`, lines 33-38) declares
`telegram_username: str` with no default, so pydantic validation rejects
an upsert request with an absent display name (and the column is
declared `nullable=False`, `src/db/schema.py`, line 162): for every
external id, building the upsert input without a display name fails. -/
theorem telegram_user_create_requires_username (id : Option Nat) (tid tc : Int) :
    TelegramUserCreate.validate id (some tid) none (some tc) = none := rfl

/-- C4: a `Tap` row commits exactly when the four `CheckConstraint`s of
`Tap.__table_args__` hold (`acked_until`, if present, strictly after
`created_at`; `scheduled_datetime` strictly after `created_at`;
`nagging_interval_seconds` strictly positive; `acked_until`, if present,
strictly after `scheduled_datetime`); a violating insert is rejected
whole and the committed rows are unchanged, and the boundary preserves
the invariant that every committed row passes all four checks. -/
theorem tap_storage_invariants (db : DB) (t : Tap) :
    (tapChecksOk t = true ↔
      ((∀ a, t.acked_until = some a → t.created_at < a) ∧
        t.created_at < t.scheduled_datetime ∧
        0 < t.nagging_interval_seconds ∧
        (∀ a, t.acked_until = some a → t.scheduled_datetime < a))) ∧
    (∀ p db', insertTap db t = .ok (p, db') →
      tapChecksOk t = true ∧ db'.taps = db.taps ++ [t]) ∧
    (tapChecksOk t = false →
      insertTap db t = .error (.invalidEntity, db) ∧
      (commitOrRollback db (insertTap db t)).taps = db.taps) ∧
    ((∀ t' ∈ db.taps, tapChecksOk t' = true) →
      ∀ t' ∈ (commitOrRollback db (insertTap db t)).taps, tapChecksOk t' = true) := by
  refine ⟨?_, ?_, ?_, ?_⟩
  · unfold tapChecksOk
    cases h : t.acked_until with
    | none => simp [h]
    | some a => simp [h, and_assoc]
  · intro p db' h
    unfold insertTap at h
    split at h
    · rename_i hok
      refine ⟨hok, ?_⟩
      injection h with h
      injection h with h1 h2
      rw [← h2]
    · exact absurd h (by simp)
  · intro hbad
    have he : insertTap db t = .error (.invalidEntity, db) := by
      unfold insertTap
      rw [if_neg (by simp [hbad])]
    exact ⟨he, by rw [he]; rfl⟩
  · intro hall t' ht'
    unfold commitOrRollback insertTap at ht'
    by_cases hchk : tapChecksOk t = true
    · rw [if_pos hchk] at ht'
      replace ht' : t' ∈ db.taps ++ [t] := ht'
      rcases List.mem_append.mp ht' with h | h
      · exact hall t' h
      · rw [List.mem_singleton.mp h]
        exact hchk
    · rw [if_neg hchk] at ht'
      exact hall t' ht'

/-- Witness for C4 at a concrete violating row: `nagging_interval_seconds = 0`
is rejected and the committed rows stay as they were. -/
theorem tap_storage_invariants_witness :
    insertTap dbEmpty ⟨1, "d", 1, 5, 0, none, 0, 0, true, false, none⟩ =
        .error (.invalidEntity, dbEmpty) ∧
      (commitOrRollback dbEmpty
        (insertTap dbEmpty ⟨1, "d", 1, 5, 0, none, 0, 0, true, false, none⟩)).taps =
        dbEmpty.taps :=
  (tap_storage_invariants dbEmpty ⟨1, "d", 1, 5, 0, none, 0, 0, true, false, none⟩).2.2.1
    (by decide)

/-- C5: every precondition failure of `create_group`, `promote_to_admin`,
`assign_group`, `exit_from_group` and `kick_from_group` aborts before any
mutation: the state carried out of the failing call is exactly the state
the call started from. -/
theorem error_leaves_state_unchanged (db : DB) (name : String)
    (cu au nau : UserModel) (group : GroupModel)
    (user kicking target : TelegramUser) :
    (∀ e db', create_group db name cu = .error (e, db') → db' = db) ∧
    (∀ e db', promote_to_admin db group au nau = .error (e, db') → db' = db) ∧
    (∀ e db', assign_group db group user = .error (e, db') → db' = db) ∧
    (∀ e db', exit_from_group db group user = .error (e, db') → db' = db) ∧
    (∀ e db', kick_from_group db group kicking target = .error (e, db') → db' = db) := by
  refine ⟨?_, ?_, ?_, ?_, ?_⟩ <;> intro e db' h
  · unfold create_group at h
    repeat' split at h
    all_goals simp_all
  · unfold promote_to_admin at h
    repeat' split at h
    all_goals simp_all
  · unfold assign_group at h
    repeat' split at h
    all_goals simp_all
  · unfold exit_from_group at h
    repeat' split at h
    all_goals simp_all
  · unfold kick_from_group at h
    repeat' split at h
    all_goals simp_all

/-- Witness for C5: concrete failing calls of each of the five operations
on sample states, each leaving the state untouched. -/
theorem error_leaves_state_unchanged_witness :
    (∃ db', create_group dbEmpty "G" ⟨none⟩ = .error (.creatorNotFound none, db') ∧
      db' = dbEmpty) ∧
    (∃ db', promote_to_admin dbEmpty gTeam ⟨none⟩ ⟨none⟩ =
      .error (.groupNotFound "G", db') ∧ db' = dbEmpty) ∧
    (∃ db', assign_group dbEmpty gTeam tuAdmin = .error (.userNotFound 10, db') ∧
      db' = dbEmpty) ∧
    (∃ db', exit_from_group dbEmpty gTeam tuAdmin = .error (.userNotFound 10, db') ∧
      db' = dbEmpty) ∧
    (∃ db', kick_from_group dbEmpty gTeam tuAdmin tuTarget =
      .error (.kickingUserNotFound 10, db') ∧ db' = dbEmpty) := by
  have h := error_leaves_state_unchanged dbEmpty "G" ⟨none⟩ ⟨none⟩ ⟨none⟩ gTeam
    tuAdmin tuAdmin tuTarget
  exact ⟨⟨dbEmpty, rfl, h.1 (.creatorNotFound none) dbEmpty rfl⟩,
    ⟨dbEmpty, rfl, h.2.1 (.groupNotFound "G") dbEmpty rfl⟩,
    ⟨dbEmpty, rfl, h.2.2.1 (.userNotFound 10) dbEmpty rfl⟩,
    ⟨dbEmpty, rfl, h.2.2.2.1 (.userNotFound 10) dbEmpty rfl⟩,
    ⟨dbEmpty, rfl, h.2.2.2.2 (.kickingUserNotFound 10) dbEmpty rfl⟩⟩

/-- The username returned by the upsert is always the requested one. -/
theorem create_user_username (db : DB) (t : TelegramUserCreate) :
    (create_user db t).1.telegram_username = some t.telegram_username := by
  cases h : findUserByTid db t.telegram_id with
  | none => simp [create_user, h, toTelegramUser]
  | some u =>
    cases hb : (u.telegram_username == t.telegram_username) with
    | true => simp [create_user, h, hb, toTelegramUser, eq_of_beq hb]
    | false => simp [create_user, h, hb, toTelegramUser]

/-- After an upsert, looking the external id up again finds a row whose
internal id is the one the upsert returned. -/
theorem create_user_found (db : DB) (t : TelegramUserCreate) :
    ∃ u', findUserByTid (create_user db t).2 t.telegram_id = some u' ∧
      (create_user db t).1.id = some u'.id := by
  cases h : findUserByTid db t.telegram_id with
  | none =>
    refine ⟨⟨db.nextUserId, t.telegram_id, t.telegram_username, t.telegram_chat_id⟩, ?_, ?_⟩
    · simp only [create_user, h]
      unfold findUserByTid at h ⊢
      rw [show (⟨db.users ++ [⟨db.nextUserId, t.telegram_id, t.telegram_username,
          t.telegram_chat_id⟩], db.groups, db.groups_users, db.groups_admins, db.taps,
          db.nextUserId + 1, db.nextGroupId⟩ : DB).users = db.users ++
          [⟨db.nextUserId, t.telegram_id, t.telegram_username, t.telegram_chat_id⟩] from rfl]
      rw [find?_append_left_none _ _ _ h]
      exact List.find?_cons_of_pos _ (by simp)
    · simp [create_user, h, toTelegramUser]
  | some u =>
    cases hb : (u.telegram_username == t.telegram_username) with
    | true =>
      refine ⟨u, ?_, ?_⟩ <;> simp [create_user, h, hb, toTelegramUser]
    | false =>
      refine ⟨{ u with telegram_username := t.telegram_username }, ?_, ?_⟩
      · simp only [create_user, h, hb, Bool.false_eq_true, if_false]
        unfold findUserByTid at h ⊢
        exact find?_updateFirst (fun v => v.telegram_id == t.telegram_id)
          (fun v => { v with telegram_username := t.telegram_username }) db.users u h
          (by simpa using List.find?_some h)
      · simp [create_user, h, hb, toTelegramUser]

/-- A second upsert with the same external id returns the same internal id. -/
theorem create_user_id_stable (db : DB) (t t' : TelegramUserCreate)
    (hid : t'.telegram_id = t.telegram_id) :
    (create_user (create_user db t).2 t').1.id = (create_user db t).1.id := by
  obtain ⟨u', hfind, hid1⟩ := create_user_found db t
  rw [hid1]
  have hfind' : findUserByTid (create_user db t).2 t'.telegram_id = some u' := by
    rw [hid]
    exact hfind
  generalize (create_user db t).2 = db1 at hfind' ⊢
  cases hb : (u'.telegram_username == t'.telegram_username) with
  | true => simp [create_user, hfind', hb, toTelegramUser]
  | false => simp [create_user, hfind', hb, toTelegramUser]

/-- C2: the user upsert is idempotent and convergent: repeating the same
request yields the same internal id and the same display name; repeating
with a changed display name (same external id) yields the same internal
id and the updated display name; the embedding of `create_user` is a
total function into `TelegramUser × DB` — it has no failure path at all,
in particular no already-exists failure. -/
theorem create_user_upsert_idempotent (db : DB) (t t' : TelegramUserCreate)
    (hid : t'.telegram_id = t.telegram_id) :
    (create_user (create_user db t).2 t).1.id = (create_user db t).1.id ∧
    (create_user (create_user db t).2 t).1.telegram_username =
      (create_user db t).1.telegram_username ∧
    (create_user (create_user (create_user db t).2 t).2 t').1.id =
      (create_user db t).1.id ∧
    (create_user (create_user (create_user db t).2 t).2 t').1.telegram_username =
      some t'.telegram_username := by
  refine ⟨create_user_id_stable db t t rfl, ?_, ?_, create_user_username _ t'⟩
  · rw [create_user_username _ t, create_user_username db t]
  · rw [create_user_id_stable _ t t' hid, create_user_id_stable db t t rfl]

/-- Witness for C2 at a concrete state: upsert of external id 7 twice,
then with a changed display name. -/
theorem create_user_upsert_idempotent_witness :
    (create_user (create_user dbEmpty ⟨none, 7, "alice", 3⟩).2 ⟨none, 7, "alice", 3⟩).1.id =
      (create_user dbEmpty ⟨none, 7, "alice", 3⟩).1.id ∧
    (create_user (create_user dbEmpty ⟨none, 7, "alice", 3⟩).2
        ⟨none, 7, "alice", 3⟩).1.telegram_username =
      (create_user dbEmpty ⟨none, 7, "alice", 3⟩).1.telegram_username ∧
    (create_user (create_user (create_user dbEmpty ⟨none, 7, "alice", 3⟩).2
        ⟨none, 7, "alice", 3⟩).2 ⟨none, 7, "bob", 3⟩).1.id =
      (create_user dbEmpty ⟨none, 7, "alice", 3⟩).1.id ∧
    (create_user (create_user (create_user dbEmpty ⟨none, 7, "alice", 3⟩).2
        ⟨none, 7, "alice", 3⟩).2 ⟨none, 7, "bob", 3⟩).1.telegram_username =
      some "bob" :=
  create_user_upsert_idempotent dbEmpty ⟨none, 7, "alice", 3⟩ ⟨none, 7, "bob", 3⟩ rfl

/-- C9: `assign_group` is idempotent: for an existing group and a
persisted user the call succeeds, and repeating it succeeds and returns
the very same user projection and the very same state (so the member-set
and its size are unchanged by the repeat, with no duplicate row and no
error). -/
theorem assign_group_idempotent (db : DB) (group : GroupModel) (user : TelegramUser)
    (du : User) (dg : Group)
    (hu : findUserByTid db user.telegram_id = some du)
    (hg : findGroupByName db group.name = some dg) :
    ∃ r1 db1, assign_group db group user = .ok (r1, db1) ∧
      assign_group db1 group user = .ok (r1, db1) := by
  by_cases hmem : (du.id, dg.id) ∈ db.groups_users
  · refine ⟨toGroupedUser db du, db, ?_, ?_⟩ <;>
      simp [assign_group, hu, hg, hmem]
  · refine ⟨toGroupedUser { db with groups_users := db.groups_users ++ [(du.id, dg.id)] } du,
      { db with groups_users := db.groups_users ++ [(du.id, dg.id)] }, ?_, ?_⟩
    · simp [assign_group, hu, hg, hmem]
    · simp [assign_group, findUserByTid_set_gu, findGroupByName_set_gu, hu, hg]

/-- Witness for C9: assigning user 2 to group "G" of `dbTeam` twice. -/
theorem assign_group_idempotent_witness :
    ∃ r1 db1, assign_group dbTeam gTeam tuTarget = .ok (r1, db1) ∧
      assign_group db1 gTeam tuTarget = .ok (r1, db1) :=
  assign_group_idempotent dbTeam gTeam tuTarget ⟨2, 20, "b", 2⟩ ⟨1, "G"⟩ rfl rfl

/-- C6: `promote_to_admin` is idempotent: with an existing group, a
persisted acting admin of the group and a persisted member target, the
call succeeds, repeating it succeeds and returns the very same group and
state (so the admin-set after the second call equals the one after the
first and its size is unchanged), the target is an admin afterwards, and
no duplicate admin row is created. -/
theorem promote_to_admin_idempotent (db : DB) (group : GroupModel)
    (admin_user new_admin_user : UserModel) (g : Group) (a na : User)
    (hg : findGroupByName db group.name = some g)
    (ha : findUserById db admin_user.id = some a)
    (haa : (a.id, g.id) ∈ db.groups_admins)
    (hn : findUserById db new_admin_user.id = some na)
    (hnm : (na.id, g.id) ∈ db.groups_users) :
    ∃ r1 db1, promote_to_admin db group admin_user new_admin_user = .ok (r1, db1) ∧
      promote_to_admin db1 group admin_user new_admin_user = .ok (r1, db1) ∧
      (na.id, g.id) ∈ db1.groups_admins ∧
      (db.groups_admins.Nodup → db1.groups_admins.Nodup) := by
  by_cases hmem : (na.id, g.id) ∈ db.groups_admins
  · refine ⟨toGroupModel db g, db, ?_, ?_, hmem, fun hnd => hnd⟩ <;>
      simp [promote_to_admin, hg, ha, hn, haa, hnm, hmem]
  · refine ⟨toGroupModel { db with groups_admins := db.groups_admins ++ [(na.id, g.id)] } g,
      { db with groups_admins := db.groups_admins ++ [(na.id, g.id)] }, ?_, ?_, ?_, ?_⟩
    · simp [promote_to_admin, hg, ha, hn, haa, hnm, hmem]
    · simp [promote_to_admin, findGroupByName_set_ga, findUserById_set_ga, hg, ha, hn,
        haa, hnm, List.mem_append]
    · simp
    · intro hnd
      simp [List.nodup_append, hnd, hmem]

/-- Witness for C6: admin 1 promoting member 2 in group "G" of `dbTeam`. -/
theorem promote_to_admin_idempotent_witness :
    ∃ r1 db1, promote_to_admin dbTeam gTeam ⟨some 1⟩ ⟨some 2⟩ = .ok (r1, db1) ∧
      promote_to_admin db1 gTeam ⟨some 1⟩ ⟨some 2⟩ = .ok (r1, db1) ∧
      ((2 : Nat), (1 : Nat)) ∈ db1.groups_admins ∧
      (dbTeam.groups_admins.Nodup → db1.groups_admins.Nodup) :=
  promote_to_admin_idempotent dbTeam gTeam ⟨some 1⟩ ⟨some 2⟩ ⟨1, "G"⟩
    ⟨1, 10, "a", 1⟩ ⟨2, 20, "b", 2⟩ rfl rfl (by decide) rfl (by decide)

/-- Inversion of a successful kick: all eight checks passed and the only
change is the removal of the target's membership row. -/
theorem kick_from_group_ok (db : DB) (group : GroupModel)
    (kicking target : TelegramUser) (r : TelegramGroupedUser) (db' : DB)
    (hok : kick_from_group db group kicking target = .ok (r, db')) :
    ∃ ku tu g, findUserByTid db kicking.telegram_id = some ku ∧
      findUserByTid db target.telegram_id = some tu ∧
      ku.telegram_id ≠ tu.telegram_id ∧
      findGroupByName db group.name = some g ∧
      (ku.id, g.id) ∈ db.groups_users ∧ (tu.id, g.id) ∈ db.groups_users ∧
      (ku.id, g.id) ∈ db.groups_admins ∧ (tu.id, g.id) ∉ db.groups_admins ∧
      db' = { db with groups_users := db.groups_users.erase (tu.id, g.id) } ∧
      r = toGroupedUser { db with groups_users := db.groups_users.erase (tu.id, g.id) } tu := by
  cases hk : findUserByTid db kicking.telegram_id with
  | none => simp [kick_from_group, hk] at hok
  | some ku =>
    cases ht : findUserByTid db target.telegram_id with
    | none => simp [kick_from_group, hk, ht] at hok
    | some tu =>
      cases hne : (ku.telegram_id == tu.telegram_id) with
      | true => simp [kick_from_group, hk, ht, hne] at hok
      | false =>
        cases hgr : findGroupByName db group.name with
        | none => simp [kick_from_group, hk, ht, hne, hgr] at hok
        | some g =>
          by_cases m1 : (ku.id, g.id) ∈ db.groups_users
          · by_cases m2 : (tu.id, g.id) ∈ db.groups_users
            · by_cases m3 : (ku.id, g.id) ∈ db.groups_admins
              · by_cases m4 : (tu.id, g.id) ∈ db.groups_admins
                · simp [kick_from_group, hk, ht, hne, hgr, m1, m2, m3, m4] at hok
                · simp only [kick_from_group, hk, ht, hne, hgr, m1, m2, m3, m4,
                    Bool.false_eq_true, if_false, if_pos, if_neg, not_false_eq_true,
                    Except.ok.injEq, Prod.mk.injEq] at hok
                  exact ⟨ku, tu, g, rfl, rfl, by simpa using hne, rfl, m1, m2, m3, m4,
                    hok.2.symm, hok.1.symm⟩
              · simp [kick_from_group, hk, ht, hne, hgr, m1, m2, m3] at hok
            · simp [kick_from_group, hk, ht, hne, hgr, m1, m2] at hok
          · simp [kick_from_group, hk, ht, hne, hgr, m1] at hok

/-- C7: leaving and kicking only touch the member-set.  A user who is
both member and admin and exits the group is removed from the member-set
while the admin-set is left exactly as it was (the user stays in it);
and a successful kick changes nothing but the removal of the target's
membership row — users, groups and the admin-set are untouched. -/
theorem exit_kick_admin_frame (db : DB) (group : GroupModel)
    (user kicking target : TelegramUser) :
    (∀ du dg, findUserByTid db user.telegram_id = some du →
      findGroupByName db group.name = some dg →
      (du.id, dg.id) ∈ db.groups_users →
      (du.id, dg.id) ∈ db.groups_admins →
      db.groups_users.Nodup →
      ∃ r db', exit_from_group db group user = .ok (r, db') ∧
        (du.id, dg.id) ∉ db'.groups_users ∧
        db'.groups_admins = db.groups_admins ∧
        (du.id, dg.id) ∈ db'.groups_admins) ∧
    (∀ r db', kick_from_group db group kicking target = .ok (r, db') →
      db'.groups_admins = db.groups_admins ∧
      db'.users = db.users ∧ db'.groups = db.groups ∧
      ∃ tu dg, findUserByTid db target.telegram_id = some tu ∧
        findGroupByName db group.name = some dg ∧
        db'.groups_users = db.groups_users.erase (tu.id, dg.id)) := by
  constructor
  · intro du dg hu hg hm hadm hnd
    refine ⟨toGroupedUser { db with groups_users := db.groups_users.erase (du.id, dg.id) } du,
      { db with groups_users := db.groups_users.erase (du.id, dg.id) }, ?_, ?_, rfl, hadm⟩
    · simp [exit_from_group, hu, hg, hm]
    · exact hnd.not_mem_erase
  · intro r db' hok
    obtain ⟨ku, tu, g, hk, ht, hne, hgr, m1, m2, m3, m4, hdb, hr⟩ :=
      kick_from_group_ok db group kicking target r db' hok
    subst hdb
    exact ⟨rfl, rfl, rfl, tu, g, ht, hgr, rfl⟩

/-- Witness for C7: in `dbTeam`, founder 1 (member and admin) exits "G"
and stays admin; and kicking member 2 only erases the membership row. -/
theorem exit_kick_admin_frame_witness :
    (∃ r db', exit_from_group dbTeam gTeam tuAdmin = .ok (r, db') ∧
      ((1 : Nat), (1 : Nat)) ∉ db'.groups_users ∧
      db'.groups_admins = dbTeam.groups_admins ∧
      ((1 : Nat), (1 : Nat)) ∈ db'.groups_admins) ∧
    (dbTeam.groups_users.erase (2, 1) = [(1, 1)]) := by
  constructor
  · exact (exit_kick_admin_frame dbTeam gTeam tuAdmin tuAdmin tuTarget).1
      ⟨1, 10, "a", 1⟩ ⟨1, "G"⟩ rfl rfl (by decide) (by decide) (by decide)
  · decide

/-- C10: a successful kick returns the target's user-with-groups
projection — its `telegram_id` is the target's, not the kicker's, it is
exactly what `get_grouped_user` returns for the target against the new
state, and the kicked group no longer appears among its memberships. -/
theorem kick_returns_target_projection (db : DB) (group : GroupModel)
    (kicking target : TelegramUser) (r : TelegramGroupedUser) (db' : DB)
    (hnd : db.groups_users.Nodup)
    (hnames : (db.groups.map Group.name).Nodup)
    (hok : kick_from_group db group kicking target = .ok (r, db')) :
    r.telegram_id = target.telegram_id ∧
    kicking.telegram_id ≠ target.telegram_id ∧
    get_grouped_user db' target.telegram_id = some r ∧
    ∀ gm ∈ r.groups, gm.name ≠ group.name := by
  obtain ⟨ku, tu, g, hk, ht, hne, hgr, m1, m2, m3, m4, hdb, hr⟩ :=
    kick_from_group_ok db group kicking target r db' hok
  have hku : ku.telegram_id = kicking.telegram_id := by
    simpa using List.find?_some hk
  have htu : tu.telegram_id = target.telegram_id := by
    simpa using List.find?_some ht
  have hgname : g.name = group.name := by
    simpa using List.find?_some hgr
  subst hdb
  subst hr
  refine ⟨htu, ?_, ?_, ?_⟩
  · rw [← hku, ← htu]
    exact hne
  · unfold get_grouped_user
    have hfind : findUserByTid
        { db with groups_users := db.groups_users.erase (tu.id, g.id) }
        target.telegram_id = some tu := ht
    rw [hfind]
  · intro gm hgm
    simp only [toGroupedUser] at hgm
    rcases List.mem_map.mp hgm with ⟨g', hg', rfl⟩
    simp only [userGroups, List.mem_filter, decide_eq_true_eq] at hg'
    obtain ⟨hg'mem, hg'pair⟩ := hg'
    simp only [toGroupModel]
    intro heq
    have hgg : g' = g :=
      List.inj_on_of_nodup_map hnames hg'mem (List.mem_of_find?_eq_some hgr)
        (heq.trans hgname.symm)
    rw [hgg] at hg'pair
    exact hnd.not_mem_erase hg'pair

/-- Witness for C10: admin 1 kicks member 2 from "G" in `dbTeam`; the
returned projection is user 2's and no longer lists "G". -/
theorem kick_returns_target_projection_witness :
    (⟨some 2, 20, some "b", some 2, [], []⟩ : TelegramGroupedUser).telegram_id =
      tuTarget.telegram_id ∧
    tuAdmin.telegram_id ≠ tuTarget.telegram_id ∧
    get_grouped_user ⟨[⟨1, 10, "a", 1⟩, ⟨2, 20, "b", 2⟩], [⟨1, "G"⟩], [(1, 1)],
        [(1, 1)], [], 3, 2⟩ tuTarget.telegram_id =
      some ⟨some 2, 20, some "b", some 2, [], []⟩ ∧
    ∀ gm ∈ (⟨some 2, 20, some "b", some 2, [], []⟩ : TelegramGroupedUser).groups,
      gm.name ≠ gTeam.name :=
  kick_returns_target_projection dbTeam gTeam tuAdmin tuTarget
    ⟨some 2, 20, some "b", some 2, [], []⟩
    ⟨[⟨1, 10, "a", 1⟩, ⟨2, 20, "b", 2⟩], [⟨1, "G"⟩], [(1, 1)], [(1, 1)], [], 3, 2⟩
    (by decide) (by decide) rfl

/-- Filtering the users for membership in an association list that just
got a fresh pair appended yields exactly the paired user. -/
theorem filter_mem_append_fresh (l : List User) (assoc : List (Nat × Nat))
    (nid : Nat) (fu : User) (hids : (l.map User.id).Nodup) (hfu : fu ∈ l)
    (hfresh : ∀ p ∈ assoc, p.2 ≠ nid) :
    l.filter (fun u => decide ((u.id, nid) ∈ assoc ++ [(fu.id, nid)])) = [fu] := by
  rw [← filter_id_eq_single l hids fu hfu]
  apply List.filter_congr
  intro u hu
  cases hbe : (u.id == fu.id) with
  | true =>
    have he : u.id = fu.id := eq_of_beq hbe
    simp [List.mem_append, he]
  | false =>
    have hne : u.id ≠ fu.id := by simpa using hbe
    have h1 : (u.id, nid) ∉ assoc := fun hmem => (hfresh _ hmem) rfl
    simp [List.mem_append, h1, Prod.ext_iff, hne]

/-- C3: `create_group` fails with the already-exists error when a group
of that name exists, fails with the not-found error when the founder is
not a persisted user, and otherwise creates a group whose member-set and
admin-set each contain exactly the founder (both of size 1).  The
hypotheses are the storage invariants of a reachable state: user ids are
unique and the fresh group id is unused in the association tables. -/
theorem create_group_correct (db : DB) (name : String) (f : UserModel)
    (hfreshU : ∀ p ∈ db.groups_users, p.2 ≠ db.nextGroupId)
    (hfreshA : ∀ p ∈ db.groups_admins, p.2 ≠ db.nextGroupId)
    (hids : (db.users.map User.id).Nodup) :
    ((findGroupByName db name).isSome = true →
      create_group db name f = .error (.groupAlreadyExists name, db)) ∧
    (findGroupByName db name = none → findUserById db f.id = none →
      create_group db name f = .error (.creatorNotFound f.id, db)) ∧
    (∀ fu, findGroupByName db name = none → findUserById db f.id = some fu →
      ∃ gm db', create_group db name f = .ok (gm, db') ∧
        gm.name = name ∧
        gm.users = [toTelegramUser fu] ∧ gm.admins = [toTelegramUser fu] ∧
        gm.users.length = 1 ∧ gm.admins.length = 1) := by
  refine ⟨?_, ?_, ?_⟩
  · intro hex
    rcases Option.isSome_iff_exists.mp hex with ⟨g0, hg0⟩
    simp [create_group, hg0]
  · intro hng hnf
    simp [create_group, hng, hnf]
  · intro fu hng hnf
    have hfu : fu ∈ db.users := List.mem_of_find?_eq_some hnf
    have hmembers : groupMembers
        { db with
            groups := db.groups ++ [⟨db.nextGroupId, name⟩],
            groups_users := db.groups_users ++ [(fu.id, db.nextGroupId)],
            groups_admins := db.groups_admins ++ [(fu.id, db.nextGroupId)],
            nextGroupId := db.nextGroupId + 1 } ⟨db.nextGroupId, name⟩ = [fu] :=
      filter_mem_append_fresh db.users db.groups_users db.nextGroupId fu hids hfu hfreshU
    have hadmins : groupAdmins
        { db with
            groups := db.groups ++ [⟨db.nextGroupId, name⟩],
            groups_users := db.groups_users ++ [(fu.id, db.nextGroupId)],
            groups_admins := db.groups_admins ++ [(fu.id, db.nextGroupId)],
            nextGroupId := db.nextGroupId + 1 } ⟨db.nextGroupId, name⟩ = [fu] :=
      filter_mem_append_fresh db.users db.groups_admins db.nextGroupId fu hids hfu hfreshA
    refine ⟨toGroupModel
        { db with
            groups := db.groups ++ [⟨db.nextGroupId, name⟩],
            groups_users := db.groups_users ++ [(fu.id, db.nextGroupId)],
            groups_admins := db.groups_admins ++ [(fu.id, db.nextGroupId)],
            nextGroupId := db.nextGroupId + 1 } ⟨db.nextGroupId, name⟩,
      { db with
          groups := db.groups ++ [⟨db.nextGroupId, name⟩],
          groups_users := db.groups_users ++ [(fu.id, db.nextGroupId)],
          groups_admins := db.groups_admins ++ [(fu.id, db.nextGroupId)],
          nextGroupId := db.nextGroupId + 1 }, ?_, rfl, ?_, ?_, ?_, ?_⟩
    · simp [create_group, hng, hnf]
    · show (groupMembers _ _).map toTelegramUser = _
      rw [hmembers]
      rfl
    · show (groupAdmins _ _).map toTelegramUser = _
      rw [hadmins]
      rfl
    · show ((groupMembers _ _).map toTelegramUser).length = 1
      rw [hmembers]
      rfl
    · show ((groupAdmins _ _).map toTelegramUser).length = 1
      rw [hadmins]
      rfl

/-- Witness for C3: user 1 of `dbOneUser` founds group "G"; the new group
holds exactly that founder as member and admin. -/
theorem create_group_correct_witness :
    ∃ gm db', create_group dbOneUser "G" ⟨some 1⟩ = .ok (gm, db') ∧
      gm.name = "G" ∧
      gm.users = [toTelegramUser ⟨1, 10, "alice", 5⟩] ∧
      gm.admins = [toTelegramUser ⟨1, 10, "alice", 5⟩] ∧
      gm.users.length = 1 ∧ gm.admins.length = 1 :=
  (create_group_correct dbOneUser "G" ⟨some 1⟩ (by decide) (by decide) (by decide)).2.2
    ⟨1, 10, "alice", 5⟩ rfl rfl

/-- C1: `kick_from_group` succeeds exactly when the kicker and the target
resolve to persisted users, they are distinct, the group exists, both are
members of it, the kicker is one of its admins and the target is not;
otherwise it fails with the specific error of the first violated
precondition in the documented source order (kicker exists, target
exists, not self-kick, group exists, kicker member, target member,
kicker admin, target not admin). -/
theorem kick_from_group_characterization (db : DB) (group : GroupModel)
    (kicking target : TelegramUser) :
    (errOf (kick_from_group db group kicking target) = none ↔
      ((findUserByTid db kicking.telegram_id).isSome = true ∧
        (findUserByTid db target.telegram_id).isSome = true ∧
        kicking.telegram_id ≠ target.telegram_id ∧
        (findGroupByName db group.name).isSome = true ∧
        memberCheck db kicking.telegram_id group.name = true ∧
        memberCheck db target.telegram_id group.name = true ∧
        adminCheck db kicking.telegram_id group.name = true ∧
        adminCheck db target.telegram_id group.name = false)) ∧
    (errOf (kick_from_group db group kicking target) =
        some (.kickingUserNotFound kicking.telegram_id) ↔
      (findUserByTid db kicking.telegram_id).isSome = false) ∧
    (errOf (kick_from_group db group kicking target) =
        some (.targetUserNotFound target.telegram_id) ↔
      ((findUserByTid db kicking.telegram_id).isSome = true ∧
        (findUserByTid db target.telegram_id).isSome = false)) ∧
    (errOf (kick_from_group db group kicking target) = some .selfKick ↔
      ((findUserByTid db kicking.telegram_id).isSome = true ∧
        (findUserByTid db target.telegram_id).isSome = true ∧
        kicking.telegram_id = target.telegram_id)) ∧
    (errOf (kick_from_group db group kicking target) =
        some (.groupNotFound group.name) ↔
      ((findUserByTid db kicking.telegram_id).isSome = true ∧
        (findUserByTid db target.telegram_id).isSome = true ∧
        kicking.telegram_id ≠ target.telegram_id ∧
        findGroupByName db group.name = none)) ∧
    (errOf (kick_from_group db group kicking target) = some .kickerNotMember ↔
      ((findUserByTid db kicking.telegram_id).isSome = true ∧
        (findUserByTid db target.telegram_id).isSome = true ∧
        kicking.telegram_id ≠ target.telegram_id ∧
        (findGroupByName db group.name).isSome = true ∧
        memberCheck db kicking.telegram_id group.name = false)) ∧
    (errOf (kick_from_group db group kicking target) = some .targetNotMember ↔
      ((findUserByTid db kicking.telegram_id).isSome = true ∧
        (findUserByTid db target.telegram_id).isSome = true ∧
        kicking.telegram_id ≠ target.telegram_id ∧
        (findGroupByName db group.name).isSome = true ∧
        memberCheck db kicking.telegram_id group.name = true ∧
        memberCheck db target.telegram_id group.name = false)) ∧
    (errOf (kick_from_group db group kicking target) = some .kickerNotAdmin ↔
      ((findUserByTid db kicking.telegram_id).isSome = true ∧
        (findUserByTid db target.telegram_id).isSome = true ∧
        kicking.telegram_id ≠ target.telegram_id ∧
        (findGroupByName db group.name).isSome = true ∧
        memberCheck db kicking.telegram_id group.name = true ∧
        memberCheck db target.telegram_id group.name = true ∧
        adminCheck db kicking.telegram_id group.name = false)) ∧
    (errOf (kick_from_group db group kicking target) = some .targetIsAdmin ↔
      ((findUserByTid db kicking.telegram_id).isSome = true ∧
        (findUserByTid db target.telegram_id).isSome = true ∧
        kicking.telegram_id ≠ target.telegram_id ∧
        (findGroupByName db group.name).isSome = true ∧
        memberCheck db kicking.telegram_id group.name = true ∧
        memberCheck db target.telegram_id group.name = true ∧
        adminCheck db kicking.telegram_id group.name = true ∧
        adminCheck db target.telegram_id group.name = true)) := by
  cases hk : findUserByTid db kicking.telegram_id with
  | none => simp [kick_from_group, errOf, memberCheck, adminCheck, hk]
  | some ku =>
    have hku : ku.telegram_id = kicking.telegram_id := by
      simpa using List.find?_some hk
    cases ht : findUserByTid db target.telegram_id with
    | none => simp [kick_from_group, errOf, memberCheck, adminCheck, hk, ht]
    | some tu =>
      have htu : tu.telegram_id = target.telegram_id := by
        simpa using List.find?_some ht
      by_cases hself : kicking.telegram_id = target.telegram_id
      · simp [kick_from_group, errOf, memberCheck, adminCheck, hk, ht, hku, htu, hself]
      · have hne : (ku.telegram_id == tu.telegram_id) = false := by
          simp [hku, htu, hself]
        cases hgr : findGroupByName db group.name with
        | none =>
          simp [kick_from_group, errOf, memberCheck, adminCheck, hk, ht, hne, hself, hgr]
        | some g =>
          by_cases m1 : (ku.id, g.id) ∈ db.groups_users
          · by_cases m2 : (tu.id, g.id) ∈ db.groups_users
            · by_cases m3 : (ku.id, g.id) ∈ db.groups_admins
              · by_cases m4 : (tu.id, g.id) ∈ db.groups_admins
                · simp [kick_from_group, errOf, memberCheck, adminCheck, hk, ht, hne,
                    hself, hgr, m1, m2, m3, m4]
                · simp [kick_from_group, errOf, memberCheck, adminCheck, hk, ht, hne,
                    hself, hgr, m1, m2, m3, m4]
              · simp [kick_from_group, errOf, memberCheck, adminCheck, hk, ht, hne,
                  hself, hgr, m1, m2, m3]
            · simp [kick_from_group, errOf, memberCheck, adminCheck, hk, ht, hne,
                hself, hgr, m1, m2]
          · simp [kick_from_group, errOf, memberCheck, adminCheck, hk, ht, hne,
              hself, hgr, m1]

end Tappy
